import Mathlib

/-!
Verification of the session and rate-limiting core of the kwork-service
(`app/core/rate_limiter.py`, `app/services/kwork_client.py`,
`app/services/kwork_playwright_auth.py`), via a shallow embedding.

Timestamps (`time.time()`, `datetime.now()`) are modelled as rationals, in
seconds.  Python `deque`s of timestamps become `List ℚ` (front = oldest);
the `defaultdict(deque)` of per-identifier buckets becomes a total function
`String → List ℚ` defaulting to `[]`.
-/

namespace Kwork

/-- Model of `RateLimiter.__init__(max_requests, time_window)`
(`rate_limiter.py` lines 15-19): the immutable configuration of one
sliding-window limiter. -/
structure RateLimiter where
  max_requests : Nat
  time_window : ℚ

/-- The mutable state of one `RateLimiter`: its `self.buckets`
dictionary, one timestamp deque per identifier (missing keys = `[]`,
as `defaultdict(deque)` yields). -/
structure RLState where
  buckets : String → List ℚ

/-- The empty bucket dictionary a fresh `RateLimiter` starts with. -/
def RLState.init : RLState := ⟨fun _ => []⟩

/-- The eviction loop
`while bucket and bucket[0] <= current_time - self.time_window: bucket.popleft()`
(`rate_limiter.py` lines 36-37 and 57-58): drop leading timestamps that are
`<= now - time_window`. -/
def RateLimiter.evict (rl : RateLimiter) (now : ℚ) (bucket : List ℚ) : List ℚ :=
  bucket.dropWhile (fun t => decide (t ≤ now - rl.time_window))

/-- Write one identifier's bucket back into the dictionary. -/
def RLState.setBucket (s : RLState) (id : String) (b : List ℚ) : RLState :=
  ⟨fun i => if i = id then b else s.buckets i⟩

/-- Model of `RateLimiter.allow_request(identifier)` (`rate_limiter.py` lines 21-46):
evict old entries, refuse if `len(bucket) >= max_requests` (the evicted
bucket is kept — the deque was mutated in place), otherwise append `now`
and admit. -/
def RateLimiter.allow_request (rl : RateLimiter) (now : ℚ) (id : String)
    (s : RLState) : Bool × RLState :=
  let bucket := rl.evict now (s.buckets id)
  if bucket.length ≥ rl.max_requests then
    (false, s.setBucket id bucket)
  else
    (true, s.setBucket id (bucket ++ [now]))

/-- Model of `RateLimiter.get_remaining_requests(identifier)` (`rate_limiter.py`
lines 48-60): evict old entries (a persistent mutation of the deque), then
return `max(0, max_requests - len(bucket))`; `Nat` subtraction is already
floored at 0. -/
def RateLimiter.get_remaining_requests (rl : RateLimiter) (now : ℚ)
    (id : String) (s : RLState) : Nat × RLState :=
  let bucket := rl.evict now (s.buckets id)
  (rl.max_requests - bucket.length, s.setBucket id bucket)

/-- Model of `RateLimiter.reset_bucket(identifier)` (`rate_limiter.py` lines 62-67):
`self.buckets[identifier].clear()`. -/
def RateLimiter.reset_bucket (_rl : RateLimiter) (id : String)
    (s : RLState) : RLState :=
  s.setBucket id []

/-- A limiter configured `RateLimiter(max_requests=3, time_window=60)`. -/
def c1Limiter : RateLimiter := ⟨3, 60⟩

/-- One timed call to a `RateLimiter` method (the three per-identifier
operations of `rate_limiter.py`). -/
inductive RLOp
  | allowReq (id : String)
  | remaining (id : String)
  | reset (id : String)

/-- Run one timed operation against the limiter's bucket dictionary. -/
def RLState.step (rl : RateLimiter) (s : RLState) : ℚ × RLOp → RLState
  | (now, .allowReq id) => (rl.allow_request now id s).2
  | (now, .remaining id) => (rl.get_remaining_requests now id s).2
  | (_, .reset id) => rl.reset_bucket id s

/-- Run a timed sequence of limiter operations. -/
def runOps (rl : RateLimiter) (ops : List (ℚ × RLOp)) (s : RLState) : RLState :=
  ops.foldl (RLState.step rl) s

/-- The bucket invariant of the spec (§3 RateBucket): every identifier's
timestamp sequence is sorted non-decreasingly, never longer than
`max_requests`, and contains only timestamps `≤ tcur` (the time of the
latest operation — the auxiliary bound that makes the induction go
through). -/
def BucketInv (rl : RateLimiter) (tcur : ℚ) (s : RLState) : Prop :=
  ∀ id, (s.buckets id).Sorted (· ≤ ·) ∧
    (s.buckets id).length ≤ rl.max_requests ∧
    ∀ t ∈ s.buckets id, t ≤ tcur

/-- The five named tiers of `AccountRateLimiter`
(`rate_limiter.py` lines 91-106). -/
inductive Tier
  | general
  | message
  | response
  | gigEdit
  | auth
deriving DecidableEq

/-- The per-tier configuration of `AccountRateLimiter.__init__`
(`rate_limiter.py` lines 91-106): general (60,60), message (10,60),
response (5,60), gig-edit (2,60), auth (10,3600). -/
def tierLimiter : Tier → RateLimiter
  | .general => ⟨60, 60⟩
  | .message => ⟨10, 60⟩
  | .response => ⟨5, 60⟩
  | .gigEdit => ⟨2, 60⟩
  | .auth => ⟨10, 3600⟩

/-- The mutable state of an `AccountRateLimiter`: the five independent
`RateLimiter` instances it constructs, one bucket dictionary each. -/
structure AccountRLState where
  general : RLState
  message : RLState
  response : RLState
  gigEdit : RLState
  auth : RLState

/-- A freshly constructed `AccountRateLimiter`: all five bucket
dictionaries empty. -/
def AccountRLState.init : AccountRLState :=
  ⟨RLState.init, RLState.init, RLState.init, RLState.init, RLState.init⟩

/-- Select one tier's limiter state. -/
def AccountRLState.tierState (s : AccountRLState) : Tier → RLState
  | .general => s.general
  | .message => s.message
  | .response => s.response
  | .gigEdit => s.gigEdit
  | .auth => s.auth

/-- Replace one tier's limiter state. -/
def AccountRLState.setTier (s : AccountRLState) : Tier → RLState → AccountRLState
  | .general, st => { s with general := st }
  | .message, st => { s with message := st }
  | .response, st => { s with response := st }
  | .gigEdit, st => { s with gigEdit := st }
  | .auth, st => { s with auth := st }

/-- Model of the `AccountRateLimiter.allow_*` methods (`rate_limiter.py` lines 108-126): each
method delegates to its tier's `RateLimiter.allow_request(account_id)`. -/
def allowTier (t : Tier) (now : ℚ) (account_id : String)
    (s : AccountRLState) : Bool × AccountRLState :=
  let r := (tierLimiter t).allow_request now account_id (s.tierState t)
  (r.1, s.setTier t r.2)

/-- Model of `RateLimiter.get_remaining_requests` through one tier of the
`AccountRateLimiter` (as in `get_rate_limit_info`, lines 128-138). -/
def remainingTier (t : Tier) (now : ℚ) (account_id : String)
    (s : AccountRLState) : Nat × AccountRLState :=
  let r := (tierLimiter t).get_remaining_requests now account_id (s.tierState t)
  (r.1, s.setTier t r.2)

/-- Model of `AccountRateLimiter.allow_general_request` (lines 108-110). -/
def allow_general_request : ℚ → String → AccountRLState → Bool × AccountRLState :=
  allowTier .general

/-- Model of `AccountRateLimiter.allow_message` (lines 112-114). -/
def allow_message : ℚ → String → AccountRLState → Bool × AccountRLState :=
  allowTier .message

/-- Model of `AccountRateLimiter.allow_auth` (lines 124-126). -/
def allow_auth : ℚ → String → AccountRLState → Bool × AccountRLState :=
  allowTier .auth

/-- A sequence of `allow` calls, all against tier `t` of account
`account_id`, at the given times. -/
def runAllows (t : Tier) (account_id : String) (times : List ℚ)
    (s : AccountRLState) : AccountRLState :=
  times.foldl (fun st now => (allowTier t now account_id st).2) s

/-- Value of `settings.MIN_DELAY` (`config.py` line 58). -/
def MIN_DELAY : ℚ := 1

/-- Value of `settings.MAX_DELAY` (`config.py` line 59). -/
def MAX_DELAY : ℚ := 3

/-- The pacing outcome of `KworkClient._ensure_rate_limit`: the delay
slept and the value written to `self.last_request_time` afterwards. -/
structure PacingResult where
  delay : ℚ
  last_request_time : ℚ
deriving DecidableEq

/-- Model of `KworkClient._ensure_rate_limit` (`kwork_client.py` lines 79-92):
consume the general tier (raising — modelled as `none` — when denied),
then if `now - last_request_time < MIN_DELAY` sleep
`u = random.uniform(MIN_DELAY, MAX_DELAY)` (the sample `u` is an input of
the model), and finally set `last_request_time = time.time()`, i.e. `now`
plus the slept delay. -/
def ensure_rate_limit (now u last_request_time : ℚ) (account_id : String)
    (s : AccountRLState) : Option PacingResult × AccountRLState :=
  let g := allow_general_request now account_id s
  if ¬ g.1 then (none, g.2)
  else
    let elapsed := now - last_request_time
    if elapsed < MIN_DELAY then (some ⟨u, now + u⟩, g.2)
    else (some ⟨0, now⟩, g.2)

/-- How a `KworkClient.send_message` call terminates
(`kwork_client.py` lines 908-1083).  The code signals every rejection
through Python's generic `Exception`: `raisedNotAuthenticated` and
`raisedMessageRateLimit` are `raise Exception(...)` statements that escape
to the caller untagged; `caughtFailure` is the trailing
`except Exception as e: return {"success": False, "message": ...}`
catch-all converting any exception raised inside the `try` block —
including the general-tier rate-limit `Exception` of
`_ensure_rate_limit` — into a failure dict; `issued` means the flow
reached the outbound HTTP request (whose network behaviour is outside the
model). -/
inductive SendOutcome
  | raisedNotAuthenticated
  | raisedMessageRateLimit
  | caughtFailure (msg : String)
  | issued
deriving DecidableEq

/-- The rate-limiting skeleton of `KworkClient.send_message`
(`kwork_client.py` lines 908-920 and 1077-1083): check
`self.is_authenticated` (raise if not), consume the message tier (raise
if denied) — both raises escape uncaught — then enter the `try` block,
whose first step `_make_request` runs `_ensure_rate_limit`, consuming the
general tier; its `Exception` on denial is caught by the generic
`except Exception` catch-all.  `nowMsg`/`nowGen` are the clock readings at
the two limiter calls. -/
def send_message (is_authenticated : Bool) (account_id : String)
    (nowMsg nowGen : ℚ) (s : AccountRLState) : SendOutcome × AccountRLState :=
  if ¬ is_authenticated then (.raisedNotAuthenticated, s)
  else
    let m := allow_message nowMsg account_id s
    if ¬ m.1 then (.raisedMessageRateLimit, m.2)
    else
      let g := allow_general_request nowGen account_id m.2
      if ¬ g.1 then
        (.caughtFailure "Failed to send message: Rate limit exceeded for account", g.2)
      else (.issued, g.2)

/-- A concrete `AccountRateLimiter` state in which account `"A"` has
exhausted the general tier: sixty admitted general requests at time 0 (the
state sixty `allow_general_request("A")` calls at time 0 leave behind). -/
def generalExhausted : AccountRLState :=
  ⟨⟨fun i => if i = "A" then List.replicate 60 0 else []⟩,
    RLState.init, RLState.init, RLState.init, RLState.init⟩

/-- A concrete `AccountRateLimiter` state in which account `"A"` has
exhausted the message tier: ten admitted message requests at time 0. -/
def messageExhausted : AccountRLState :=
  ⟨RLState.init,
    ⟨fun i => if i = "A" then List.replicate 10 0 else []⟩,
    RLState.init, RLState.init, RLState.init⟩

/-- The saved cookie record written by `KworkPlaywrightAuth.save_cookies`
and read by `load_cookies` (`kwork_playwright_auth.py` lines 47-95): the
`cookies` list plus the optional `expires_at` field (`load_cookies` only
checks it when the key is present). -/
structure CookieFile where
  cookies : List (String × String)
  expires_at : Option ℚ
deriving DecidableEq

/-- Model of `KworkPlaywrightAuth.load_cookies` (`kwork_playwright_auth.py` lines
47-71): if no file exists, report `false`; if the record carries
`expires_at` and `now > expires_at`, report `false` without installing
anything; otherwise, when a browser context is open, install the stored
cookies into it and report `true`.  Returns the success flag and the
cookies installed into the context. -/
def load_cookies (now : ℚ) (file : Option CookieFile) (hasContext : Bool) :
    Bool × List (String × String) :=
  match file with
  | none => (false, [])
  | some f =>
    match f.expires_at with
    | some e =>
      if now > e then (false, [])
      else if hasContext then (true, f.cookies) else (false, [])
    | none => if hasContext then (true, f.cookies) else (false, [])

/-- The externally observable side effects of one browser-automation
authentication attempt: chromium launches (`init_browser`), page
navigations (`page.goto`), and login-form submissions (filling the
credential fields and clicking the submit button). -/
structure AuthEffects where
  browserLaunches : Nat
  navigations : Nat
  loginSubmissions : Nat
deriving DecidableEq

/-- The environment of one browser authentication attempt: whether the
browser launches, whether the platform accepts the saved cookies at the
`/profile` validation navigation, whether the credential login flow lands
off the login page, and the cookie set the platform grants a fresh
login. -/
structure AuthEnv where
  browserInitOk : Bool
  savedCookiesValid : Bool
  loginFlowSucceeds : Bool
  freshCookies : List (String × String)

/-- The result of `KworkPlaywrightAuth.authenticate_with_browser`: the
boolean outcome, the cookie file on disk afterwards, the cookies held by
the browser context, and the external effects performed. -/
structure BrowserAuthResult where
  success : Bool
  file : Option CookieFile
  contextCookies : List (String × String)
  effects : AuthEffects
deriving DecidableEq

/-- Seven days, the TTL `save_cookies` stamps into `expires_at`
(`datetime.now() + timedelta(days=7)`), in seconds. -/
def cookieTTL : ℚ := 604800

/-- Model of `KworkPlaywrightAuth.authenticate_with_browser`
(`kwork_playwright_auth.py` lines 147-314), automatic (`show_browser =
False`) path, assuming the login-form selectors resolve: launch the
browser (`init_browser` — one launch even when it fails); try
`load_cookies`; when cookies load, navigate to `/profile` to validate
them and, if the platform accepts them, return success with no login-form
submission; otherwise navigate to the login page, fill and submit the
form (one submission); on success perform the `/profile` check and
`save_cookies` (stamping `expires_at = now + 7 days`); on failure leave
the file as it was. -/
def authenticate_with_browser (env : AuthEnv) (now : ℚ)
    (file : Option CookieFile) : BrowserAuthResult :=
  if ¬ env.browserInitOk then ⟨false, file, [], ⟨1, 0, 0⟩⟩
  else
    let lr := load_cookies now file true
    if lr.1 && env.savedCookiesValid then
      ⟨true, file, lr.2, ⟨1, 1, 0⟩⟩
    else
      let navsBefore : Nat := if lr.1 then 2 else 1
      if env.loginFlowSucceeds then
        ⟨true, some ⟨env.freshCookies, some (now + cookieTTL)⟩,
          env.freshCookies, ⟨1, navsBefore + 1, 1⟩⟩
      else
        ⟨false, file, lr.2, ⟨1, navsBefore, 1⟩⟩

/-- The result of the module-level gateway routine
`authenticate_kwork_account`: the cookie dict handed back (or `None`),
the cookie file afterwards, and the effects performed. -/
structure GatewayResult where
  cookies : Option (List (String × String))
  file : Option CookieFile
  effects : AuthEffects
deriving DecidableEq

/-- Model of `authenticate_kwork_account` (`kwork_playwright_auth.py` lines
389-418): on `force_new_auth` delete the saved cookie file, run
`authenticate_with_browser`, and on success return
`get_cookies_for_httpx()` — the browser context's cookies. -/
def authenticate_kwork_account (env : AuthEnv) (now : ℚ)
    (force_new_auth : Bool) (file : Option CookieFile) : GatewayResult :=
  let file0 := if force_new_auth then none else file
  let r := authenticate_with_browser env now file0
  if r.success then ⟨some r.contextCookies, r.file, r.effects⟩
  else ⟨none, r.file, r.effects⟩

/-- Python `dict.update` on cookie dictionaries: keys of `old` keep their
position and take the updated value when present in `upd`; keys new in
`upd` are appended in order. -/
def dictUpdate (old upd : List (String × String)) : List (String × String) :=
  old.map (fun kv =>
    match upd.lookup kv.1 with
    | some v => (kv.1, v)
    | none => kv) ++
  upd.filter (fun kv => (old.lookup kv.1).isNone)

/-- The authentication-relevant mutable fields of a `KworkClient`:
`self.is_authenticated` and `self.session_cookies`. -/
structure ClientSession where
  is_authenticated : Bool
  session_cookies : List (String × String)
deriving DecidableEq

/-- The result of one `KworkClient.authenticate_with_playwright` call:
its boolean return, the client session afterwards, the auth-tier limiter
state afterwards, the cookie file afterwards, and the external effects
performed during the call. -/
structure PlaywrightAuthResult where
  ok : Bool
  client : ClientSession
  authBucket : RLState
  file : Option CookieFile
  effects : AuthEffects

/-- Model of `KworkClient.authenticate_with_playwright` (`kwork_client.py` lines
252-289): first consume the auth tier
(`account_rate_limiter.allow_auth`); on denial return `False` having
performed no external effect; otherwise run `authenticate_kwork_account`
and, when it hands back a non-empty cookie dict (`if cookies:` — an empty
dict is falsy), merge it into `self.session_cookies`, set
`self.is_authenticated = True` and return `True`; otherwise return
`False`. -/
def authenticate_with_playwright (env : AuthEnv) (now : ℚ)
    (account_id : String) (client : ClientSession) (authSt : RLState)
    (file : Option CookieFile) (force_new_auth : Bool) :
    PlaywrightAuthResult :=
  let a := (tierLimiter .auth).allow_request now account_id authSt
  if ¬ a.1 then ⟨false, client, a.2, file, ⟨0, 0, 0⟩⟩
  else
    let r := authenticate_kwork_account env now force_new_auth file
    match r.cookies with
    | some cs =>
      if cs.isEmpty then ⟨false, client, a.2, r.file, r.effects⟩
      else
        ⟨true, ⟨true, dictUpdate client.session_cookies cs⟩, a.2, r.file,
          r.effects⟩
    | none => ⟨false, client, a.2, r.file, r.effects⟩

/-- The guard of the form-based `KworkClient.authenticate`
(`kwork_client.py` lines 129-137): consume the auth tier; on denial
return `False` without touching the network; otherwise the body proceeds
to the login HTTP flow (its outcome, out of this claim's scope, is the
input `gatewayOutcome`).  The third component records whether the
external login flow was invoked. -/
def authenticate_form (now : ℚ) (account_id : String) (authSt : RLState)
    (gatewayOutcome : Bool) : Bool × RLState × Bool :=
  let a := (tierLimiter .auth).allow_request now account_id authSt
  if ¬ a.1 then (false, a.2, false)
  else (gatewayOutcome, a.2, true)

/-- A concrete auth-tier limiter state: account `"A"` has made ten auth
attempts at time 0, exhausting the `auth_limiter` budget (10 per 3600s). -/
def authExhausted : RLState :=
  ⟨fun i => if i = "A" then List.replicate 10 0 else []⟩

/-- A benign authentication environment: the browser launches, the
platform accepts saved cookies at validation, a credential login
succeeds, and a fresh login is granted one session cookie. -/
def goodEnv : AuthEnv :=
  ⟨true, true, true, [("kwork_session", "fresh")]⟩

/-- The cached client record a `KworkClientManager` stores: the
constructor arguments of `KworkClient(account_id, login,
encrypted_password)` that matter to claim C10. -/
structure KworkClientRec where
  account_id : String
  login : String
  encrypted_password : String
deriving DecidableEq

/-- The mutable state of `KworkClientManager` (`kwork_client.py` lines
3153-3158): the `self.clients` dict and `self.active_account`. -/
structure ManagerState where
  clients : String → Option KworkClientRec
  active_account : Option String

/-- A freshly constructed `KworkClientManager`. -/
def ManagerState.init : ManagerState := ⟨fun _ => none, none⟩

/-- Model of `KworkClientManager.get_client` (`kwork_client.py` lines 3161-3166):
construct and cache a client only when `account_id` is absent from
`self.clients`, then return `self.clients[account_id]`. -/
def get_client (account_id login encrypted_password : String)
    (m : ManagerState) : KworkClientRec × ManagerState :=
  match m.clients account_id with
  | some c => (c, m)
  | none =>
    let c : KworkClientRec := ⟨account_id, login, encrypted_password⟩
    (c, { m with clients := fun i => if i = account_id then some c else m.clients i })

/-- A sequence of `get_client` calls, threading the manager state. -/
def runGetClients (ops : List (String × String × String))
    (m : ManagerState) : ManagerState :=
  ops.foldl (fun st op => (get_client op.1 op.2.1 op.2.2 st).2) m

end Kwork


namespace Kwork

theorem buckets_setBucket_same (s : RLState) (id : String) (b : List ℚ) :
    (s.setBucket id b).buckets id = b := by
  simp [RLState.setBucket]

theorem buckets_setBucket_ne (s : RLState) (id i : String) (b : List ℚ)
    (h : i ≠ id) : (s.setBucket id b).buckets i = s.buckets i := by
  simp [RLState.setBucket, h]

theorem setBucket_self (s : RLState) (id : String) :
    s.setBucket id (s.buckets id) = s := by
  cases s with
  | mk f =>
    unfold RLState.setBucket
    congr 1
    funext i
    by_cases h : i = id
    · simp [h]
    · simp [h]

theorem evict_nil (rl : RateLimiter) (now : ℚ) : rl.evict now [] = [] := rfl

theorem evict_keep (rl : RateLimiter) (now t : ℚ) (l : List ℚ)
    (h : now - rl.time_window < t) : rl.evict now (t :: l) = t :: l := by
  unfold RateLimiter.evict
  rw [List.dropWhile_cons, if_neg]
  simp only [decide_eq_true_eq]
  exact not_le.2 h

theorem evict_drop (rl : RateLimiter) (now t : ℚ) (l : List ℚ)
    (h : t ≤ now - rl.time_window) : rl.evict now (t :: l) = rl.evict now l := by
  unfold RateLimiter.evict
  rw [List.dropWhile_cons, if_pos]
  simpa using h

theorem allow_state_true (rl : RateLimiter) (now : ℚ) (id : String) (s : RLState)
    (h : (rl.evict now (s.buckets id)).length < rl.max_requests) :
    rl.allow_request now id s =
      (true, s.setBucket id (rl.evict now (s.buckets id) ++ [now])) := by
  unfold RateLimiter.allow_request
  rw [if_neg]
  exact not_le.2 h

theorem allow_state_false (rl : RateLimiter) (now : ℚ) (id : String) (s : RLState)
    (h : (rl.evict now (s.buckets id)).length ≥ rl.max_requests) :
    rl.allow_request now id s =
      (false, s.setBucket id (rl.evict now (s.buckets id))) := by
  unfold RateLimiter.allow_request
  rw [if_pos h]

/-- Claim C1: sliding-window exactness of the limiter.  For a limiter
configured `max_requests = 3`, `time_window = 60`, three `allow_request`
calls within less than 60 seconds of the first all return `true`; a fourth
call inside the same window returns `false` and records no event (the
state is unchanged); and an `allow_request` call 60 seconds after the
first admitted event returns `true` again. -/
theorem sliding_window_exactness (id : String) (t0 t1 t2 t3 : ℚ)
    (_h01 : t0 ≤ t1) (h12 : t1 ≤ t2) (h23 : t2 ≤ t3) (h3 : t3 < t0 + 60) :
    (c1Limiter.allow_request t0 id RLState.init).1 = true ∧
    (c1Limiter.allow_request t1 id (c1Limiter.allow_request t0 id RLState.init).2).1 = true ∧
    (c1Limiter.allow_request t2 id (c1Limiter.allow_request t1 id
        (c1Limiter.allow_request t0 id RLState.init).2).2).1 = true ∧
    (c1Limiter.allow_request t3 id (c1Limiter.allow_request t2 id
        (c1Limiter.allow_request t1 id
          (c1Limiter.allow_request t0 id RLState.init).2).2).2).1 = false ∧
    (c1Limiter.allow_request t3 id (c1Limiter.allow_request t2 id
        (c1Limiter.allow_request t1 id
          (c1Limiter.allow_request t0 id RLState.init).2).2).2).2 =
      (c1Limiter.allow_request t2 id (c1Limiter.allow_request t1 id
        (c1Limiter.allow_request t0 id RLState.init).2).2).2 ∧
    (c1Limiter.allow_request (t0 + 60) id
      (c1Limiter.allow_request t3 id (c1Limiter.allow_request t2 id
        (c1Limiter.allow_request t1 id
          (c1Limiter.allow_request t0 id RLState.init).2).2).2).2).1 = true := by
  have hw : c1Limiter.time_window = 60 := rfl
  have hm : c1Limiter.max_requests = 3 := rfl
  have hb0 : RLState.init.buckets id = [] := rfl
  have e1 : c1Limiter.allow_request t0 id RLState.init
      = (true, RLState.init.setBucket id [t0]) := by
    rw [allow_state_true] <;> rw [hb0, evict_nil] <;> simp [hm]
  have hb1 : (RLState.init.setBucket id [t0]).buckets id = [t0] :=
    buckets_setBucket_same _ _ _
  have ev1 : c1Limiter.evict t1 [t0] = [t0] := by
    apply evict_keep
    rw [hw]; linarith
  have e2 : c1Limiter.allow_request t1 id (RLState.init.setBucket id [t0])
      = (true, (RLState.init.setBucket id [t0]).setBucket id [t0, t1]) := by
    rw [allow_state_true] <;> rw [hb1, ev1] <;> simp [hm]
  have hb2 : ((RLState.init.setBucket id [t0]).setBucket id [t0, t1]).buckets id
      = [t0, t1] := buckets_setBucket_same _ _ _
  have ev2 : c1Limiter.evict t2 [t0, t1] = [t0, t1] := by
    apply evict_keep
    rw [hw]; linarith
  have e3 : c1Limiter.allow_request t2 id
      ((RLState.init.setBucket id [t0]).setBucket id [t0, t1])
      = (true, ((RLState.init.setBucket id [t0]).setBucket id [t0, t1]).setBucket id
          [t0, t1, t2]) := by
    rw [allow_state_true] <;> rw [hb2, ev2] <;> simp [hm]
  have hb3 : (((RLState.init.setBucket id [t0]).setBucket id [t0, t1]).setBucket id
      [t0, t1, t2]).buckets id = [t0, t1, t2] := buckets_setBucket_same _ _ _
  have ev3 : c1Limiter.evict t3 [t0, t1, t2] = [t0, t1, t2] := by
    apply evict_keep
    rw [hw]; linarith
  have e4 : c1Limiter.allow_request t3 id
      (((RLState.init.setBucket id [t0]).setBucket id [t0, t1]).setBucket id [t0, t1, t2])
      = (false, (((RLState.init.setBucket id [t0]).setBucket id [t0, t1]).setBucket id
          [t0, t1, t2])) := by
    rw [allow_state_false]
    · rw [hb3, ev3]
      conv_rhs => rw [← setBucket_self (((RLState.init.setBucket id [t0]).setBucket id
        [t0, t1]).setBucket id [t0, t1, t2]) id]
      rw [hb3]
    · rw [hb3, ev3, hm]
      simp
  have ev4 : c1Limiter.evict (t0 + 60) [t0, t1, t2]
      = c1Limiter.evict (t0 + 60) [t1, t2] := by
    apply evict_drop
    rw [hw]; linarith
  have e5 : (c1Limiter.allow_request (t0 + 60) id
      (((RLState.init.setBucket id [t0]).setBucket id [t0, t1]).setBucket id
        [t0, t1, t2])).1 = true := by
    rw [allow_state_true]
    rw [hb3, ev4, hm]
    calc (c1Limiter.evict (t0 + 60) [t1, t2]).length
        ≤ [t1, t2].length := (List.dropWhile_sublist _).length_le
      _ < 3 := by simp
  refine ⟨?_, ?_, ?_, ?_, ?_, ?_⟩
  · rw [e1]
  · rw [e1, e2]
  · rw [e1, e2, e3]
  · rw [e1, e2, e3, e4]
  · rw [e1, e2, e3, e4]
  · rw [e1, e2, e3, e4]
    exact e5

end Kwork

namespace Kwork

theorem evict_sorted (rl : RateLimiter) (now : ℚ) (l : List ℚ)
    (h : l.Sorted (· ≤ ·)) : (rl.evict now l).Sorted (· ≤ ·) :=
  h.sublist (List.dropWhile_sublist _)

theorem evict_length_le (rl : RateLimiter) (now : ℚ) (l : List ℚ) :
    (rl.evict now l).length ≤ l.length :=
  (List.dropWhile_sublist _).length_le

theorem evict_subset (rl : RateLimiter) (now : ℚ) (l : List ℚ) :
    ∀ t ∈ rl.evict now l, t ∈ l :=
  fun _ h => (List.dropWhile_sublist _).subset h

theorem init_inv (rl : RateLimiter) (tc : ℚ) : BucketInv rl tc RLState.init := by
  intro id
  refine ⟨List.sorted_nil, ?_, ?_⟩ <;> simp [RLState.init]

theorem setBucket_inv (rl : RateLimiter) (tc : ℚ) (s : RLState) (id : String)
    (b : List ℚ) (hs : BucketInv rl tc s)
    (hb : b.Sorted (· ≤ ·) ∧ b.length ≤ rl.max_requests ∧ ∀ t ∈ b, t ≤ tc) :
    BucketInv rl tc (s.setBucket id b) := by
  intro i
  by_cases h : i = id
  · rw [h, buckets_setBucket_same]
    exact hb
  · rw [buckets_setBucket_ne _ _ _ _ h]
    exact hs i

theorem allow_request_inv (rl : RateLimiter) (now tc : ℚ) (id : String)
    (s : RLState) (hs : BucketInv rl tc s) (ht : tc ≤ now) :
    BucketInv rl now (rl.allow_request now id s).2 := by
  obtain ⟨hsort, hlen, hmem⟩ := hs id
  have hs' : BucketInv rl now s := by
    intro i
    obtain ⟨h1, h2, h3⟩ := hs i
    exact ⟨h1, h2, fun t h => le_trans (h3 t h) ht⟩
  by_cases hc : (rl.evict now (s.buckets id)).length ≥ rl.max_requests
  · -- rejected: bucket evicted only
    rw [allow_state_false _ _ _ _ hc]
    apply setBucket_inv rl now _ _ _ hs'
    refine ⟨evict_sorted _ _ _ hsort, ?_, ?_⟩
    · exact le_trans (evict_length_le _ _ _) hlen
    · exact fun t h => le_trans (hmem t (evict_subset _ _ _ t h)) ht
  · -- admitted: evicted plus now appended
    rw [allow_state_true _ _ _ _ (lt_of_not_ge hc)]
    apply setBucket_inv rl now _ _ _ hs'
    have hlt : (rl.evict now (s.buckets id)).length < rl.max_requests :=
      lt_of_not_ge hc
    refine ⟨?_, ?_, ?_⟩
    · rw [List.Sorted, List.pairwise_append]
      refine ⟨evict_sorted _ _ _ hsort, List.pairwise_singleton _ _, ?_⟩
      intro x hx y hy
      rw [List.mem_singleton] at hy
      subst hy
      exact le_trans (hmem x (evict_subset _ _ _ x hx)) ht
    · rw [List.length_append]
      simpa using hlt
    · intro t h'
      rcases List.mem_append.1 h' with h' | h'
      · exact le_trans (hmem t (evict_subset _ _ _ t h')) ht
      · rw [List.mem_singleton] at h'
        exact le_of_eq h'

theorem remaining_inv (rl : RateLimiter) (now tc : ℚ) (id : String)
    (s : RLState) (hs : BucketInv rl tc s) (ht : tc ≤ now) :
    BucketInv rl now (rl.get_remaining_requests now id s).2 := by
  obtain ⟨hsort, hlen, hmem⟩ := hs id
  have hs' : BucketInv rl now s := by
    intro i
    obtain ⟨h1, h2, h3⟩ := hs i
    exact ⟨h1, h2, fun t h => le_trans (h3 t h) ht⟩
  have hr : (rl.get_remaining_requests now id s).2
      = s.setBucket id (rl.evict now (s.buckets id)) := rfl
  rw [hr]
  apply setBucket_inv rl now _ _ _ hs'
  refine ⟨evict_sorted _ _ _ hsort, ?_, ?_⟩
  · exact le_trans (evict_length_le _ _ _) hlen
  · exact fun t h => le_trans (hmem t (evict_subset _ _ _ t h)) ht

theorem reset_inv (rl : RateLimiter) (now tc : ℚ) (id : String)
    (s : RLState) (hs : BucketInv rl tc s) (ht : tc ≤ now) :
    BucketInv rl now (rl.reset_bucket id s) := by
  have hs' : BucketInv rl now s := by
    intro i
    obtain ⟨h1, h2, h3⟩ := hs i
    exact ⟨h1, h2, fun t h => le_trans (h3 t h) ht⟩
  unfold RateLimiter.reset_bucket
  apply setBucket_inv rl now _ _ _ hs'
  refine ⟨List.sorted_nil, ?_, ?_⟩ <;> simp

theorem step_inv (rl : RateLimiter) (tc : ℚ) (op : ℚ × RLOp) (s : RLState)
    (hs : BucketInv rl tc s) (ht : tc ≤ op.1) :
    BucketInv rl op.1 (RLState.step rl s op) := by
  obtain ⟨now, o⟩ := op
  cases o with
  | allowReq id => exact allow_request_inv rl now tc id s hs ht
  | remaining id => exact remaining_inv rl now tc id s hs ht
  | reset id => exact reset_inv rl now tc id s hs ht

theorem runOps_inv (rl : RateLimiter) (ops : List (ℚ × RLOp)) (tc : ℚ)
    (s : RLState) (hs : BucketInv rl tc s)
    (hchain : List.Chain (· ≤ ·) tc (ops.map Prod.fst)) :
    ∃ tf, BucketInv rl tf (runOps rl ops s) := by
  induction ops generalizing tc s with
  | nil => exact ⟨tc, hs⟩
  | cons op rest ih =>
    rw [List.map_cons, List.chain_cons] at hchain
    have hstep := step_inv rl tc op s hs hchain.1
    have : runOps rl (op :: rest) s = runOps rl rest (RLState.step rl s op) := by
      simp [runOps]
    rw [this]
    exact ih op.1 (RLState.step rl s op) hstep hchain.2

/-- Claim C2: bucket invariant preserved by every limiter operation.
Running any sequence of `allow_request`, `get_remaining_requests` and
`reset_bucket` calls with non-decreasing timestamps from the initial
state, every identifier's bucket is monotonically non-decreasing, never
longer than `max_requests`, and at any observation instant `now` the
number of recorded timestamps inside `[now - time_window, now]` is at
most `max_requests`. -/
theorem bucket_invariant_all_ops (rl : RateLimiter) (ops : List (ℚ × RLOp))
    (t0 : ℚ) (hchain : List.Chain (· ≤ ·) t0 (ops.map Prod.fst)) :
    ∀ id,
      ((runOps rl ops RLState.init).buckets id).Sorted (· ≤ ·) ∧
      ((runOps rl ops RLState.init).buckets id).length ≤ rl.max_requests ∧
      ∀ now, (((runOps rl ops RLState.init).buckets id).filter
          (fun t => decide (now - rl.time_window ≤ t) && decide (t ≤ now))).length
        ≤ rl.max_requests := by
  obtain ⟨tf, h⟩ := runOps_inv rl ops t0 RLState.init (init_inv rl t0) hchain
  intro id
  obtain ⟨h1, h2, _⟩ := h id
  exact ⟨h1, h2, fun now => le_trans (List.length_filter_le _ _) h2⟩

end Kwork

namespace Kwork

/-- Claim C1 witness: the trace of `sliding_window_exactness` at the
concrete times 0, 1, 2, 3 and 60 for identifier `"a"`. -/
theorem sliding_window_exactness_witness :
    ((0:ℚ) ≤ 1 ∧ (1:ℚ) ≤ 2 ∧ (2:ℚ) ≤ 3 ∧ (3:ℚ) < 0 + 60) ∧
    ((c1Limiter.allow_request 0 "a" RLState.init).1 = true ∧
    (c1Limiter.allow_request 1 "a" (c1Limiter.allow_request 0 "a" RLState.init).2).1 = true ∧
    (c1Limiter.allow_request 2 "a" (c1Limiter.allow_request 1 "a"
        (c1Limiter.allow_request 0 "a" RLState.init).2).2).1 = true ∧
    (c1Limiter.allow_request 3 "a" (c1Limiter.allow_request 2 "a"
        (c1Limiter.allow_request 1 "a"
          (c1Limiter.allow_request 0 "a" RLState.init).2).2).2).1 = false ∧
    (c1Limiter.allow_request 3 "a" (c1Limiter.allow_request 2 "a"
        (c1Limiter.allow_request 1 "a"
          (c1Limiter.allow_request 0 "a" RLState.init).2).2).2).2 =
      (c1Limiter.allow_request 2 "a" (c1Limiter.allow_request 1 "a"
        (c1Limiter.allow_request 0 "a" RLState.init).2).2).2 ∧
    (c1Limiter.allow_request ((0:ℚ) + 60) "a"
      (c1Limiter.allow_request 3 "a" (c1Limiter.allow_request 2 "a"
        (c1Limiter.allow_request 1 "a"
          (c1Limiter.allow_request 0 "a" RLState.init).2).2).2).2).1 = true) :=
  ⟨⟨by norm_num, by norm_num, by norm_num, by norm_num⟩,
    sliding_window_exactness "a" 0 1 2 3 (by norm_num) (by norm_num) (by norm_num)
      (by norm_num)⟩

/-- Claim C2 witness: `bucket_invariant_all_ops` on the message-tier
limiter over a five-operation trace, observed at time 5. -/
theorem bucket_invariant_all_ops_witness :
    List.Chain (· ≤ ·) (0:ℚ)
      (([((0:ℚ), RLOp.allowReq "a"), (1, RLOp.allowReq "a"), (2, RLOp.remaining "a"),
        (3, RLOp.reset "a"), (4, RLOp.allowReq "a")]).map Prod.fst) ∧
    ((runOps (tierLimiter .message)
        [((0:ℚ), RLOp.allowReq "a"), (1, RLOp.allowReq "a"), (2, RLOp.remaining "a"),
          (3, RLOp.reset "a"), (4, RLOp.allowReq "a")] RLState.init).buckets "a").Sorted (· ≤ ·) ∧
    ((runOps (tierLimiter .message)
        [((0:ℚ), RLOp.allowReq "a"), (1, RLOp.allowReq "a"), (2, RLOp.remaining "a"),
          (3, RLOp.reset "a"), (4, RLOp.allowReq "a")] RLState.init).buckets "a").length
      ≤ (tierLimiter .message).max_requests ∧
    (((runOps (tierLimiter .message)
        [((0:ℚ), RLOp.allowReq "a"), (1, RLOp.allowReq "a"), (2, RLOp.remaining "a"),
          (3, RLOp.reset "a"), (4, RLOp.allowReq "a")] RLState.init).buckets "a").filter
        (fun t => decide ((5:ℚ) - (tierLimiter .message).time_window ≤ t) &&
          decide (t ≤ (5:ℚ)))).length ≤ (tierLimiter .message).max_requests := by
  have hch : List.Chain (· ≤ ·) (0:ℚ)
      (([((0:ℚ), RLOp.allowReq "a"), (1, RLOp.allowReq "a"), (2, RLOp.remaining "a"),
        (3, RLOp.reset "a"), (4, RLOp.allowReq "a")]).map Prod.fst) := by
    norm_num [List.chain_cons]
  obtain ⟨h1, h2, h3⟩ := bucket_invariant_all_ops (tierLimiter .message)
    [((0:ℚ), RLOp.allowReq "a"), (1, RLOp.allowReq "a"), (2, RLOp.remaining "a"),
      (3, RLOp.reset "a"), (4, RLOp.allowReq "a")] 0 hch "a"
  exact ⟨hch, h1, h2, h3 5⟩

end Kwork

namespace Kwork

/-- An `allow_request` call for one identifier leaves every other
identifier's bucket untouched. -/
theorem allow_request_buckets_ne (rl : RateLimiter) (now : ℚ) (a b : String)
    (s : RLState) (h : b ≠ a) :
    ((rl.allow_request now a s).2).buckets b = s.buckets b := by
  by_cases hc : (rl.evict now (s.buckets a)).length ≥ rl.max_requests
  · rw [allow_state_false _ _ _ _ hc]
    exact buckets_setBucket_ne _ _ _ _ h
  · rw [allow_state_true _ _ _ _ (lt_of_not_ge hc)]
    exact buckets_setBucket_ne _ _ _ _ h

theorem allow_fst_congr (rl : RateLimiter) (now : ℚ) (a : String)
    (s s' : RLState) (h : s.buckets a = s'.buckets a) :
    (rl.allow_request now a s).1 = (rl.allow_request now a s').1 := by
  by_cases hc : (rl.evict now (s'.buckets a)).length ≥ rl.max_requests
  · have hc' : (rl.evict now (s.buckets a)).length ≥ rl.max_requests := by
      rw [h]; exact hc
    rw [allow_state_false _ _ _ _ hc', allow_state_false _ _ _ _ hc]
  · have hc' : ¬ (rl.evict now (s.buckets a)).length ≥ rl.max_requests := by
      rw [h]; exact hc
    rw [allow_state_true _ _ _ _ (lt_of_not_ge hc'),
      allow_state_true _ _ _ _ (lt_of_not_ge hc)]

theorem remaining_snd (rl : RateLimiter) (now : ℚ) (a : String) (s : RLState) :
    (rl.get_remaining_requests now a s).2
      = s.setBucket a (rl.evict now (s.buckets a)) := rfl

theorem remaining_fst (rl : RateLimiter) (now : ℚ) (a : String) (s : RLState) :
    (rl.get_remaining_requests now a s).1
      = rl.max_requests - (rl.evict now (s.buckets a)).length := rfl

theorem remaining_fst_congr (rl : RateLimiter) (now : ℚ) (a : String)
    (s s' : RLState) (h : s.buckets a = s'.buckets a) :
    (rl.get_remaining_requests now a s).1 = (rl.get_remaining_requests now a s').1 := by
  rw [remaining_fst, remaining_fst, h]

theorem tierState_setTier_same (s : AccountRLState) (t : Tier) (st : RLState) :
    (s.setTier t st).tierState t = st := by
  cases t <;> rfl

theorem tierState_setTier_ne (s : AccountRLState) (t t' : Tier) (st : RLState)
    (h : t' ≠ t) : (s.setTier t st).tierState t' = s.tierState t' := by
  cases t <;> cases t' <;>
    first
      | rfl
      | exact absurd rfl h

theorem allowTier_fst (t : Tier) (now : ℚ) (a : String) (s : AccountRLState) :
    (allowTier t now a s).1
      = ((tierLimiter t).allow_request now a (s.tierState t)).1 := rfl

theorem allowTier_snd (t : Tier) (now : ℚ) (a : String) (s : AccountRLState) :
    (allowTier t now a s).2
      = s.setTier t ((tierLimiter t).allow_request now a (s.tierState t)).2 := rfl

theorem allowTier_frame (t₁ t₂ : Tier) (a₁ a₂ : String) (now : ℚ)
    (s : AccountRLState) (h : (a₁, t₁) ≠ (a₂, t₂)) :
    ((allowTier t₁ now a₁ s).2.tierState t₂).buckets a₂
      = (s.tierState t₂).buckets a₂ := by
  rw [allowTier_snd]
  by_cases ht : t₂ = t₁
  · subst ht
    have ha : a₂ ≠ a₁ := by
      rintro rfl
      exact h rfl
    rw [tierState_setTier_same]
    exact allow_request_buckets_ne _ _ _ _ _ ha
  · rw [tierState_setTier_ne _ _ _ _ ht]

theorem runAllows_frame (t₁ t₂ : Tier) (a₁ a₂ : String) (times : List ℚ)
    (s : AccountRLState) (h : (a₁, t₁) ≠ (a₂, t₂)) :
    ((runAllows t₁ a₁ times s).tierState t₂).buckets a₂
      = (s.tierState t₂).buckets a₂ := by
  induction times generalizing s with
  | nil => rfl
  | cons x xs ih =>
    have : runAllows t₁ a₁ (x :: xs) s
        = runAllows t₁ a₁ xs (allowTier t₁ x a₁ s).2 := by
      simp [runAllows]
    rw [this, ih, allowTier_frame t₁ t₂ a₁ a₂ x s h]

/-- Claim C4: bucket independence across accounts and tiers.  For any two
distinct `(accountId, tier)` pairs, any number of `allow` calls against
the first pair changes neither the `allow` verdict nor the `remaining`
count of the second pair. -/
theorem bucket_independence (t₁ t₂ : Tier) (a₁ a₂ : String) (times : List ℚ)
    (now : ℚ) (s : AccountRLState) (h : (a₁, t₁) ≠ (a₂, t₂)) :
    (allowTier t₂ now a₂ (runAllows t₁ a₁ times s)).1
      = (allowTier t₂ now a₂ s).1 ∧
    (remainingTier t₂ now a₂ (runAllows t₁ a₁ times s)).1
      = (remainingTier t₂ now a₂ s).1 := by
  constructor
  · rw [allowTier_fst, allowTier_fst]
    exact allow_fst_congr _ _ _ _ _ (runAllows_frame t₁ t₂ a₁ a₂ times s h)
  · have e : ∀ s' : AccountRLState, (remainingTier t₂ now a₂ s').1
        = ((tierLimiter t₂).get_remaining_requests now a₂ (s'.tierState t₂)).1 :=
      fun _ => rfl
    rw [e, e]
    exact remaining_fst_congr _ _ _ _ _ (runAllows_frame t₁ t₂ a₁ a₂ times s h)

/-- Claim C4 witness: exhausting account `"A"`'s message tier (ten allows
at time 0) does not change `allow("B", message)` or its remaining count,
and exhausting `"A"`'s response tier does not change
`allow("A", message)`. -/
theorem bucket_independence_witness :
    (("A", Tier.message) ≠ ("B", Tier.message) ∧
      ("A", Tier.response) ≠ ("A", Tier.message)) ∧
    ((allowTier .message 0 "B"
        (runAllows .message "A" [0, 0, 0, 0, 0, 0, 0, 0, 0, 0] AccountRLState.init)).1
      = (allowTier .message 0 "B" AccountRLState.init).1 ∧
    (remainingTier .message 0 "B"
        (runAllows .message "A" [0, 0, 0, 0, 0, 0, 0, 0, 0, 0] AccountRLState.init)).1
      = (remainingTier .message 0 "B" AccountRLState.init).1) ∧
    ((allowTier .message 0 "A"
        (runAllows .response "A" [0, 0, 0, 0, 0] AccountRLState.init)).1
      = (allowTier .message 0 "A" AccountRLState.init).1 ∧
    (remainingTier .message 0 "A"
        (runAllows .response "A" [0, 0, 0, 0, 0] AccountRLState.init)).1
      = (remainingTier .message 0 "A" AccountRLState.init).1) :=
  ⟨⟨by decide, by decide⟩,
    bucket_independence .message .message "A" "B" [0, 0, 0, 0, 0, 0, 0, 0, 0, 0] 0
      AccountRLState.init (by decide),
    bucket_independence .response .message "A" "A" [0, 0, 0, 0, 0] 0
      AccountRLState.init (by decide)⟩

end Kwork

namespace Kwork

theorem allow_true_bucket (rl : RateLimiter) (now : ℚ) (id : String) (s : RLState)
    (h : (rl.allow_request now id s).1 = true) :
    ((rl.allow_request now id s).2).buckets id
      = rl.evict now (s.buckets id) ++ [now] := by
  by_cases hc : (rl.evict now (s.buckets id)).length ≥ rl.max_requests
  · rw [allow_state_false _ _ _ _ hc] at h
    cases h
  · rw [allow_state_true _ _ _ _ (lt_of_not_ge hc)]
    exact buckets_setBucket_same _ _ _

/-- Claim C3 (amended): in `send_message` the specific (message) tier is
consumed first and the general tier afterwards, inside the request path.
If the message check fails, the rejection is raised at once and the
general tier is untouched; if the message check succeeds and the general
check then fails, the operation is rejected but the message-tier event
recorded by the earlier check remains appended. -/
theorem send_message_tier_order (account_id : String) (nowMsg nowGen : ℚ)
    (s : AccountRLState) :
    ((allow_message nowMsg account_id s).1 = false →
      (send_message true account_id nowMsg nowGen s).1
        = SendOutcome.raisedMessageRateLimit ∧
      ((send_message true account_id nowMsg nowGen s).2).general = s.general) ∧
    ((allow_message nowMsg account_id s).1 = true →
      (allow_general_request nowGen account_id
          (allow_message nowMsg account_id s).2).1 = false →
      (send_message true account_id nowMsg nowGen s).1
        = SendOutcome.caughtFailure
            "Failed to send message: Rate limit exceeded for account" ∧
      ((send_message true account_id nowMsg nowGen s).2).message.buckets account_id
        = (tierLimiter .message).evict nowMsg (s.message.buckets account_id)
            ++ [nowMsg]) := by
  constructor
  · intro hm
    have e : send_message true account_id nowMsg nowGen s
        = (.raisedMessageRateLimit, (allow_message nowMsg account_id s).2) := by
      simp only [send_message]
      rw [if_neg (by simp)]
      rw [hm]
      simp
    rw [e]
    exact ⟨rfl, rfl⟩
  · intro hm hg
    have e : send_message true account_id nowMsg nowGen s
        = (.caughtFailure "Failed to send message: Rate limit exceeded for account",
            (allow_general_request nowGen account_id
              (allow_message nowMsg account_id s).2).2) := by
      simp only [send_message]
      rw [if_neg (by simp)]
      rw [hm, hg]
      simp
    rw [e]
    constructor
    · rfl
    · have e2 : ((allow_general_request nowGen account_id
          (allow_message nowMsg account_id s).2).2).message
          = ((allow_message nowMsg account_id s).2).message := rfl
      have e3 : ((allow_message nowMsg account_id s).2).message
          = ((tierLimiter .message).allow_request nowMsg account_id s.message).2 := rfl
      show (((allow_general_request nowGen account_id
          (allow_message nowMsg account_id s).2).2).message).buckets account_id = _
      rw [e2, e3]
      exact allow_true_bucket _ _ _ _ hm

end Kwork

namespace Kwork

theorem evict_replicate_zero (rl : RateLimiter) (now : ℚ) (n : Nat)
    (h : now - rl.time_window < 0) :
    rl.evict now (List.replicate (n + 1) 0) = List.replicate (n + 1) 0 := by
  rw [List.replicate_succ]
  rw [evict_keep _ _ _ _ h]

theorem message_allow_init :
    (tierLimiter .message).allow_request 1 "A" RLState.init
      = (true, RLState.init.setBucket "A" [(1:ℚ)]) := by
  rw [allow_state_true]
  · rw [show RLState.init.buckets "A" = [] from rfl, evict_nil]
    simp
  · rw [show RLState.init.buckets "A" = [] from rfl, evict_nil]
    simp [tierLimiter]

theorem general_allow_exhausted :
    (tierLimiter .general).allow_request 1 "A" generalExhausted.general
      = (false, generalExhausted.general.setBucket "A" (List.replicate 60 (0:ℚ))) := by
  have hb : generalExhausted.general.buckets "A" = List.replicate 60 (0:ℚ) := by
    simp [generalExhausted]
  have hev : (tierLimiter .general).evict 1 (List.replicate 60 (0:ℚ))
      = List.replicate 60 (0:ℚ) := by
    have h : (1:ℚ) - (tierLimiter .general).time_window < 0 := by
      norm_num [tierLimiter]
    have := evict_replicate_zero (tierLimiter .general) 1 59 h
    simpa using this
  rw [allow_state_false]
  · rw [hb, hev]
  · rw [hb, hev]
    simp [tierLimiter]

theorem message_allow_exhausted :
    (tierLimiter .message).allow_request 1 "A" messageExhausted.message
      = (false, messageExhausted.message.setBucket "A" (List.replicate 10 (0:ℚ))) := by
  have hb : messageExhausted.message.buckets "A" = List.replicate 10 (0:ℚ) := by
    simp [messageExhausted]
  have hev : (tierLimiter .message).evict 1 (List.replicate 10 (0:ℚ))
      = List.replicate 10 (0:ℚ) := by
    have h : (1:ℚ) - (tierLimiter .message).time_window < 0 := by
      norm_num [tierLimiter]
    have := evict_replicate_zero (tierLimiter .message) 1 9 h
    simpa using this
  rw [allow_state_false]
  · rw [hb, hev]
  · rw [hb, hev]
    simp [tierLimiter]

theorem generalExhausted_msg_fst :
    (allow_message 1 "A" generalExhausted).1 = true := by
  show ((tierLimiter .message).allow_request 1 "A"
    (generalExhausted.tierState .message)).1 = true
  rw [show generalExhausted.tierState .message = RLState.init from rfl]
  rw [message_allow_init]

theorem generalExhausted_gen_fst :
    (allow_general_request 1 "A" (allow_message 1 "A" generalExhausted).2).1
      = false := by
  show ((tierLimiter .general).allow_request 1 "A"
    (((allow_message 1 "A" generalExhausted).2).tierState .general)).1 = false
  rw [show ((allow_message 1 "A" generalExhausted).2).tierState .general
    = generalExhausted.general from rfl]
  rw [general_allow_exhausted]

theorem messageExhausted_msg_fst :
    (allow_message 1 "A" messageExhausted).1 = false := by
  show ((tierLimiter .message).allow_request 1 "A"
    (messageExhausted.tierState .message)).1 = false
  rw [show messageExhausted.tierState .message = messageExhausted.message from rfl]
  rw [message_allow_exhausted]

/-- Claim C3 counterexample: with account `"A"`'s general tier exhausted
and its message tier empty, `send_message` is rejected by the general
tier (through the catch-all), yet the message tier's event sequence has
changed from `[]` to `[1]` — refuting both "the general check is
evaluated first" and "a rejection by the general tier leaves the
specific tier's event sequence unchanged". -/
theorem send_message_general_first_counterexample :
    (send_message true "A" 1 1 generalExhausted).1
      = SendOutcome.caughtFailure
          "Failed to send message: Rate limit exceeded for account" ∧
    generalExhausted.message.buckets "A" = [] ∧
    ((send_message true "A" 1 1 generalExhausted).2).message.buckets "A"
      = [(1:ℚ)] := by
  have e : send_message true "A" 1 1 generalExhausted
      = (.caughtFailure "Failed to send message: Rate limit exceeded for account",
          (allow_general_request 1 "A" (allow_message 1 "A" generalExhausted).2).2) := by
    simp only [send_message]
    rw [if_neg (by simp)]
    rw [generalExhausted_msg_fst, generalExhausted_gen_fst]
    simp
  refine ⟨by rw [e], by simp [generalExhausted, RLState.init], ?_⟩
  rw [e]
  have e2 : ((allow_general_request 1 "A" (allow_message 1 "A" generalExhausted).2).2).message
      = ((tierLimiter .message).allow_request 1 "A" RLState.init).2 := rfl
  show (((allow_general_request 1 "A"
    (allow_message 1 "A" generalExhausted).2).2).message).buckets "A" = [(1:ℚ)]
  rw [e2, message_allow_init]
  exact buckets_setBucket_same _ _ _

end Kwork

namespace Kwork

/-- Claim C3 witness: both branches of `send_message_tier_order` at
concrete exhausted states. -/
theorem send_message_tier_order_witness :
    ((allow_message 1 "A" messageExhausted).1 = false ∧
      ((send_message true "A" 1 1 messageExhausted).1
          = SendOutcome.raisedMessageRateLimit ∧
        ((send_message true "A" 1 1 messageExhausted).2).general
          = messageExhausted.general)) ∧
    ((allow_message 1 "A" generalExhausted).1 = true ∧
      (allow_general_request 1 "A" (allow_message 1 "A" generalExhausted).2).1
        = false ∧
      ((send_message true "A" 1 1 generalExhausted).1
          = SendOutcome.caughtFailure
              "Failed to send message: Rate limit exceeded for account" ∧
        ((send_message true "A" 1 1 generalExhausted).2).message.buckets "A"
          = (tierLimiter .message).evict 1 (generalExhausted.message.buckets "A")
              ++ [1])) :=
  ⟨⟨messageExhausted_msg_fst,
    (send_message_tier_order "A" 1 1 messageExhausted).1 messageExhausted_msg_fst⟩,
   ⟨generalExhausted_msg_fst, generalExhausted_gen_fst,
    (send_message_tier_order "A" 1 1 generalExhausted).2 generalExhausted_msg_fst
      generalExhausted_gen_fst⟩⟩

/-- Claim C7 (amended): the three rejection channels of `send_message`.
An unauthenticated call and a message-tier denial escape as raw generic
exceptions (`raise Exception(...)`, untagged), and a general-tier denial
raised inside the request path is swallowed by the trailing generic
`except Exception` catch-all into an untagged failure dict whose only
payload is a message string. -/
theorem send_message_rejection_channels (is_auth : Bool) (account_id : String)
    (nowMsg nowGen : ℚ) (s : AccountRLState) :
    (is_auth = false →
      (send_message is_auth account_id nowMsg nowGen s).1
        = SendOutcome.raisedNotAuthenticated) ∧
    (is_auth = true →
      (allow_message nowMsg account_id s).1 = false →
      (send_message is_auth account_id nowMsg nowGen s).1
        = SendOutcome.raisedMessageRateLimit) ∧
    (is_auth = true →
      (allow_message nowMsg account_id s).1 = true →
      (allow_general_request nowGen account_id
          (allow_message nowMsg account_id s).2).1 = false →
      (send_message is_auth account_id nowMsg nowGen s).1
        = SendOutcome.caughtFailure
            "Failed to send message: Rate limit exceeded for account") := by
  refine ⟨fun h => ?_, fun h hm => ?_, fun h hm hg => ?_⟩
  · subst h
    simp [send_message]
  · subst h
    simp only [send_message]
    rw [if_neg (by simp)]
    rw [hm]
    simp
  · subst h
    simp only [send_message]
    rw [if_neg (by simp)]
    rw [hm, hg]
    simp

/-- Claim C7 counterexample: a message-tier rejection surfaces as the raw
generic exception outcome, and a general-tier rejection is swallowed by
`send_message`'s generic catch-all into a string-only failure result —
refuting "no rejection is signaled as a generic untagged exception and no
rejection reason is swallowed into a generic catch-all". -/
theorem send_message_untagged_rejections_counterexample :
    (send_message true "A" 1 1 messageExhausted).1
      = SendOutcome.raisedMessageRateLimit ∧
    (send_message true "A" 1 1 generalExhausted).1
      = SendOutcome.caughtFailure
          "Failed to send message: Rate limit exceeded for account" := by
  constructor
  · simp only [send_message]
    rw [if_neg (by simp)]
    rw [messageExhausted_msg_fst]
    simp
  · simp only [send_message]
    rw [if_neg (by simp)]
    rw [generalExhausted_msg_fst, generalExhausted_gen_fst]
    simp

/-- Claim C7 witness: all three channels of
`send_message_rejection_channels` at concrete states. -/
theorem send_message_rejection_channels_witness :
    ((send_message false "A" 1 1 AccountRLState.init).1
        = SendOutcome.raisedNotAuthenticated) ∧
    ((allow_message 1 "A" messageExhausted).1 = false ∧
      (send_message true "A" 1 1 messageExhausted).1
        = SendOutcome.raisedMessageRateLimit) ∧
    ((allow_message 1 "A" generalExhausted).1 = true ∧
      (allow_general_request 1 "A" (allow_message 1 "A" generalExhausted).2).1
        = false ∧
      (send_message true "A" 1 1 generalExhausted).1
        = SendOutcome.caughtFailure
            "Failed to send message: Rate limit exceeded for account") :=
  ⟨(send_message_rejection_channels false "A" 1 1 AccountRLState.init).1 rfl,
   ⟨messageExhausted_msg_fst,
    (send_message_rejection_channels true "A" 1 1 messageExhausted).2.1 rfl
      messageExhausted_msg_fst⟩,
   ⟨generalExhausted_msg_fst, generalExhausted_gen_fst,
    (send_message_rejection_channels true "A" 1 1 generalExhausted).2.2 rfl
      generalExhausted_msg_fst generalExhausted_gen_fst⟩⟩

end Kwork

namespace Kwork

/-- Claim C6: auth-budget guard.  Whenever the auth tier denies, both
`authenticate_with_playwright` and the form-based `authenticate` return
failure immediately: no browser launch, navigation or login-form
submission happens, the client session and cookie file are untouched, and
the external login flow is not invoked. -/
theorem auth_budget_guard (env : AuthEnv) (now : ℚ) (account_id : String)
    (client : ClientSession) (authSt : RLState) (file : Option CookieFile)
    (force_new_auth gatewayOutcome : Bool)
    (h : ((tierLimiter .auth).allow_request now account_id authSt).1 = false) :
    (authenticate_with_playwright env now account_id client authSt file
        force_new_auth).ok = false ∧
    (authenticate_with_playwright env now account_id client authSt file
        force_new_auth).effects = ⟨0, 0, 0⟩ ∧
    (authenticate_with_playwright env now account_id client authSt file
        force_new_auth).client = client ∧
    (authenticate_with_playwright env now account_id client authSt file
        force_new_auth).file = file ∧
    (authenticate_form now account_id authSt gatewayOutcome).1 = false ∧
    (authenticate_form now account_id authSt gatewayOutcome).2.2 = false := by
  have e : authenticate_with_playwright env now account_id client authSt file
      force_new_auth
      = ⟨false, client, ((tierLimiter .auth).allow_request now account_id authSt).2,
          file, ⟨0, 0, 0⟩⟩ := by
    simp only [authenticate_with_playwright]
    rw [h]
    simp
  have e2 : authenticate_form now account_id authSt gatewayOutcome
      = (false, ((tierLimiter .auth).allow_request now account_id authSt).2, false) := by
    simp only [authenticate_form]
    rw [h]
    simp
  rw [e, e2]
  exact ⟨rfl, rfl, rfl, rfl, rfl, rfl⟩

theorem auth_allow_exhausted :
    ((tierLimiter .auth).allow_request 1 "A" authExhausted).1 = false := by
  have hb : authExhausted.buckets "A" = List.replicate 10 (0:ℚ) := by
    simp [authExhausted]
  have hev : (tierLimiter .auth).evict 1 (List.replicate 10 (0:ℚ))
      = List.replicate 10 (0:ℚ) := by
    have h : (1:ℚ) - (tierLimiter .auth).time_window < 0 := by
      norm_num [tierLimiter]
    have := evict_replicate_zero (tierLimiter .auth) 1 9 h
    simpa using this
  have hcond : ((tierLimiter .auth).evict 1 (authExhausted.buckets "A")).length
      ≥ (tierLimiter .auth).max_requests := by
    rw [hb, hev]
    simp [tierLimiter]
  rw [allow_state_false _ _ _ _ hcond]

/-- Claim C6 witness: `auth_budget_guard` on a concrete exhausted
auth bucket (ten attempts at time 0, observed at time 1). -/
theorem auth_budget_guard_witness :
    (((tierLimiter .auth).allow_request 1 "A" authExhausted).1 = false) ∧
    (authenticate_with_playwright goodEnv 1 "A" ⟨false, []⟩ authExhausted none
        false).ok = false ∧
    (authenticate_with_playwright goodEnv 1 "A" ⟨false, []⟩ authExhausted none
        false).effects = ⟨0, 0, 0⟩ ∧
    (authenticate_form 1 "A" authExhausted true).1 = false ∧
    (authenticate_form 1 "A" authExhausted true).2.2 = false :=
  ⟨auth_allow_exhausted,
    (auth_budget_guard goodEnv 1 "A" ⟨false, []⟩ authExhausted none false true
      auth_allow_exhausted).1,
    (auth_budget_guard goodEnv 1 "A" ⟨false, []⟩ authExhausted none false true
      auth_allow_exhausted).2.1,
    (auth_budget_guard goodEnv 1 "A" ⟨false, []⟩ authExhausted none false true
      auth_allow_exhausted).2.2.2.2.1,
    (auth_budget_guard goodEnv 1 "A" ⟨false, []⟩ authExhausted none false true
      auth_allow_exhausted).2.2.2.2.2⟩

/-- Claim C8: pacing delay of `_ensure_rate_limit`.  When the general
tier admits the request and `u` is the drawn `uniform(MIN_DELAY,
MAX_DELAY)` sample, then if `now - last_request_time < MIN_DELAY` the
call waits `u ∈ [MIN_DELAY, MAX_DELAY]` and sets `last_request_time` to
the issuance time `now + u`; if the elapsed time is at least `MIN_DELAY`
no delay is inserted and `last_request_time` becomes `now`. -/
theorem pacing_delay (now u last_request_time : ℚ) (account_id : String)
    (s : AccountRLState)
    (hu1 : MIN_DELAY ≤ u) (hu2 : u ≤ MAX_DELAY)
    (hg : (allow_general_request now account_id s).1 = true) :
    ∃ r, (ensure_rate_limit now u last_request_time account_id s).1 = some r ∧
      (now - last_request_time < MIN_DELAY →
        r.delay = u ∧ MIN_DELAY ≤ r.delay ∧ r.delay ≤ MAX_DELAY ∧
        r.last_request_time = now + r.delay) ∧
      (MIN_DELAY ≤ now - last_request_time →
        r.delay = 0 ∧ r.last_request_time = now) := by
  by_cases hd : now - last_request_time < MIN_DELAY
  · refine ⟨⟨u, now + u⟩, ?_, fun _ => ⟨rfl, hu1, hu2, rfl⟩,
      fun hle => absurd hd (not_lt.2 hle)⟩
    simp only [ensure_rate_limit]
    rw [hg]
    simp [hd]
  · refine ⟨⟨0, now⟩, ?_, fun hlt => absurd hlt hd, fun _ => ⟨rfl, rfl⟩⟩
    simp only [ensure_rate_limit]
    rw [hg]
    simp [hd]

theorem general_allow_init10 :
    (allow_general_request 10 "A" AccountRLState.init).1 = true := by
  show ((tierLimiter .general).allow_request 10 "A" RLState.init).1 = true
  have hlt : ((tierLimiter .general).evict 10 (RLState.init.buckets "A")).length
      < (tierLimiter .general).max_requests := by
    rw [show RLState.init.buckets "A" = [] from rfl, evict_nil]
    simp [tierLimiter]
  rw [allow_state_true _ _ _ _ hlt]

/-- Claim C8 witness: `pacing_delay` at `now = 10`,
`last_request_time = 9.5`, sample `u = 2`. -/
theorem pacing_delay_witness :
    (MIN_DELAY ≤ (2:ℚ) ∧ (2:ℚ) ≤ MAX_DELAY ∧
      (allow_general_request 10 "A" AccountRLState.init).1 = true) ∧
    ∃ r, (ensure_rate_limit 10 2 (19/2) "A" AccountRLState.init).1 = some r ∧
      ((10:ℚ) - 19/2 < MIN_DELAY →
        r.delay = 2 ∧ MIN_DELAY ≤ r.delay ∧ r.delay ≤ MAX_DELAY ∧
        r.last_request_time = 10 + r.delay) ∧
      (MIN_DELAY ≤ (10:ℚ) - 19/2 →
        r.delay = 0 ∧ r.last_request_time = 10) :=
  ⟨⟨by norm_num [MIN_DELAY], by norm_num [MAX_DELAY], general_allow_init10⟩,
    pacing_delay 10 2 (19/2) "A" AccountRLState.init (by norm_num [MIN_DELAY])
      (by norm_num [MAX_DELAY]) general_allow_init10⟩

/-- Claim C9: the persisted-session TTL is honored on load.  For any
saved cookie record carrying an explicit `expires_at` earlier than the
load time, `load_cookies` reports failure and installs nothing into the
browser context. -/
theorem ttl_honored_on_load (now : ℚ) (f : CookieFile) (e : ℚ)
    (hasContext : Bool) (he : f.expires_at = some e) (hstale : e < now) :
    load_cookies now (some f) hasContext = (false, []) := by
  obtain ⟨cs, ex⟩ := f
  simp only at he
  subst he
  simp only [load_cookies]
  rw [if_pos hstale]

/-- Claim C9 witness: `ttl_honored_on_load` on a record expired at time
0, loaded at time 1. -/
theorem ttl_honored_on_load_witness :
    ((⟨[("kwork_session", "old")], some 0⟩ : CookieFile).expires_at = some 0 ∧
      (0:ℚ) < 1) ∧
    load_cookies 1 (some ⟨[("kwork_session", "old")], some 0⟩) true
      = (false, []) :=
  ⟨⟨rfl, by norm_num⟩,
    ttl_honored_on_load 1 ⟨[("kwork_session", "old")], some 0⟩ 0 true rfl
      (by norm_num)⟩

theorem get_client_cached (a l p : String) (m : ManagerState)
    (c : KworkClientRec) (h : m.clients a = some c) :
    get_client a l p m = (c, m) := by
  simp only [get_client]
  rw [h]

theorem get_client_new (a l p : String) (m : ManagerState)
    (h : m.clients a = none) :
    get_client a l p m
      = (⟨a, l, p⟩, { m with clients :=
          fun i => if i = a then some ⟨a, l, p⟩ else m.clients i }) := by
  simp only [get_client]
  rw [h]

theorem get_client_preserves (a x l p : String) (m : ManagerState)
    (c : KworkClientRec) (h : m.clients a = some c) :
    ((get_client x l p m).2).clients a = some c := by
  cases hx : m.clients x with
  | some c' =>
    rw [get_client_cached x l p m c' hx]
    exact h
  | none =>
    rw [get_client_new x l p m hx]
    dsimp only
    by_cases hax : a = x
    · subst hax
      rw [h] at hx
      cases hx
    · rw [if_neg hax]
      exact h

theorem runGetClients_preserves (ops : List (String × String × String))
    (m : ManagerState) (a : String) (c : KworkClientRec)
    (h : m.clients a = some c) :
    (runGetClients ops m).clients a = some c := by
  induction ops generalizing m with
  | nil => exact h
  | cons op rest ih =>
    have e : runGetClients (op :: rest) m
        = runGetClients rest ((get_client op.1 op.2.1 op.2.2 m).2) := by
      simp [runGetClients]
    rw [e]
    exact ih _ (get_client_preserves a op.1 op.2.1 op.2.2 m c h)

/-- Claim C10: client-pool idempotence with silently ignored
credentials.  After a first `get_client(a, l₁, p₁)` call, any later
`get_client(a, l₂, p₂)` call — after arbitrary intervening `get_client`
calls — returns the identical cached client record carrying the original
credentials `l₁, p₁`, ignoring `l₂, p₂`, and leaves the manager state
unchanged. -/
theorem get_client_idempotent (a l₁ p₁ l₂ p₂ : String)
    (ops : List (String × String × String)) (m : ManagerState)
    (h : m.clients a = none) :
    (get_client a l₁ p₁ m).1 = ⟨a, l₁, p₁⟩ ∧
    get_client a l₂ p₂ (runGetClients ops (get_client a l₁ p₁ m).2)
      = (⟨a, l₁, p₁⟩, runGetClients ops (get_client a l₁ p₁ m).2) := by
  constructor
  · rw [get_client_new a l₁ p₁ m h]
  · have h1 : ((get_client a l₁ p₁ m).2).clients a = some ⟨a, l₁, p₁⟩ := by
      rw [get_client_new a l₁ p₁ m h]
      simp
    have h2 := runGetClients_preserves ops _ a _ h1
    exact get_client_cached a l₂ p₂ _ _ h2

/-- Claim C10 witness: `get_client_idempotent` on a fresh manager with
one intervening call for account `"B"`. -/
theorem get_client_idempotent_witness :
    (ManagerState.init.clients "A" = none) ∧
    (get_client "A" "login1" "pw1" ManagerState.init).1 = ⟨"A", "login1", "pw1"⟩ ∧
    get_client "A" "login2" "pw2"
        (runGetClients [("B", "loginB", "pwB")]
          (get_client "A" "login1" "pw1" ManagerState.init).2)
      = (⟨"A", "login1", "pw1"⟩,
          runGetClients [("B", "loginB", "pwB")]
            (get_client "A" "login1" "pw1" ManagerState.init).2) :=
  ⟨rfl, get_client_idempotent "A" "login1" "pw1" "login2" "pw2"
    [("B", "loginB", "pwB")] ManagerState.init rfl⟩

end Kwork

namespace Kwork

/-- Claim C5 counterexample: with a fresh, valid saved cookie file (a
cached Authenticated session within TTL, no forced refresh), an
`authenticate_with_playwright` call still launches the browser and
performs an external validation navigation (effects `⟨1, 1, 0⟩`, not
zero), and a second such call repeats both — so the browser-automation
gateway runs on every call, refuting "returns the cached cookies
immediately without any external call" and "at most one gateway
invocation across two calls". -/
theorem auth_cache_hit_external_calls_counterexample :
    (authenticate_with_playwright goodEnv 10 "A"
        ⟨true, [("kwork_session", "cached")]⟩ RLState.init
        (some ⟨[("kwork_session", "cached")], some 1000⟩) false).ok = true ∧
    (authenticate_with_playwright goodEnv 10 "A"
        ⟨true, [("kwork_session", "cached")]⟩ RLState.init
        (some ⟨[("kwork_session", "cached")], some 1000⟩) false).effects
      = ⟨1, 1, 0⟩ ∧
    (authenticate_with_playwright goodEnv 20 "A"
        (authenticate_with_playwright goodEnv 10 "A"
          ⟨true, [("kwork_session", "cached")]⟩ RLState.init
          (some ⟨[("kwork_session", "cached")], some 1000⟩) false).client
        (authenticate_with_playwright goodEnv 10 "A"
          ⟨true, [("kwork_session", "cached")]⟩ RLState.init
          (some ⟨[("kwork_session", "cached")], some 1000⟩) false).authBucket
        (authenticate_with_playwright goodEnv 10 "A"
          ⟨true, [("kwork_session", "cached")]⟩ RLState.init
          (some ⟨[("kwork_session", "cached")], some 1000⟩) false).file
        false).effects = ⟨1, 1, 0⟩ := by
  norm_num [authenticate_with_playwright, authenticate_kwork_account,
    authenticate_with_browser, load_cookies, goodEnv, tierLimiter,
    RateLimiter.allow_request, RateLimiter.evict, RLState.init,
    RLState.setBucket, dictUpdate, List.dropWhile, List.lookup]

end Kwork

namespace Kwork

/-- Claim C5 (amended): starting with no saved cookie file, when the
browser launches, the platform accepts both the fresh login and the saved
cookies, and the second call happens within the 7-day cookie TTL, two
sequential `authenticate_with_playwright` calls both succeed and submit
the login form exactly once in total: the first call submits it once, the
second call's saved-cookie path submits nothing. -/
theorem auth_login_submitted_at_most_once (env : AuthEnv) (now₁ now₂ : ℚ)
    (a : String) (client : ClientSession)
    (h1 : env.browserInitOk = true) (h2 : env.savedCookiesValid = true)
    (h3 : env.loginFlowSucceeds = true) (h4 : env.freshCookies ≠ [])
    (httl : now₂ ≤ now₁ + cookieTTL) :
    (authenticate_with_playwright env now₁ a client RLState.init none false).ok
      = true ∧
    (authenticate_with_playwright env now₁ a client RLState.init none
        false).effects.loginSubmissions = 1 ∧
    (authenticate_with_playwright env now₂ a
        (authenticate_with_playwright env now₁ a client RLState.init none
          false).client
        (authenticate_with_playwright env now₁ a client RLState.init none
          false).authBucket
        (authenticate_with_playwright env now₁ a client RLState.init none
          false).file
        false).ok = true ∧
    (authenticate_with_playwright env now₂ a
        (authenticate_with_playwright env now₁ a client RLState.init none
          false).client
        (authenticate_with_playwright env now₁ a client RLState.init none
          false).authBucket
        (authenticate_with_playwright env now₁ a client RLState.init none
          false).file
        false).effects.loginSubmissions = 0 := by
  have hempty : env.freshCookies.isEmpty = false := by
    cases hc : env.freshCookies with
    | nil => exact absurd hc h4
    | cons x xs => rfl
  have hlt₁ : ((tierLimiter .auth).evict now₁ (RLState.init.buckets a)).length
      < (tierLimiter .auth).max_requests := by
    rw [show RLState.init.buckets a = [] from rfl, evict_nil]
    norm_num [tierLimiter]
  have allow₁ : (tierLimiter .auth).allow_request now₁ a RLState.init
      = (true, RLState.init.setBucket a [now₁]) := by
    rw [allow_state_true _ _ _ _ hlt₁]
    rw [show RLState.init.buckets a = [] from rfl, evict_nil]
    simp
  have eb1 : authenticate_with_browser env now₁ none
      = ⟨true, some ⟨env.freshCookies, some (now₁ + cookieTTL)⟩,
          env.freshCookies, ⟨1, 2, 1⟩⟩ := by
    simp [authenticate_with_browser, load_cookies, h1, h3]
  have eg1 : authenticate_kwork_account env now₁ false none
      = ⟨some env.freshCookies,
          some ⟨env.freshCookies, some (now₁ + cookieTTL)⟩, ⟨1, 2, 1⟩⟩ := by
    simp [authenticate_kwork_account, eb1]
  have e1 : authenticate_with_playwright env now₁ a client RLState.init none false
      = ⟨true, ⟨true, dictUpdate client.session_cookies env.freshCookies⟩,
          RLState.init.setBucket a [now₁],
          some ⟨env.freshCookies, some (now₁ + cookieTTL)⟩, ⟨1, 2, 1⟩⟩ := by
    simp only [authenticate_with_playwright]
    rw [allow₁]
    simp only []
    rw [eg1]
    simp [hempty]
  have hlt₂ : ((tierLimiter .auth).evict now₂
      ((RLState.init.setBucket a [now₁]).buckets a)).length
      < (tierLimiter .auth).max_requests := by
    rw [buckets_setBucket_same]
    exact lt_of_le_of_lt (evict_length_le _ _ _) (by norm_num [tierLimiter])
  have ha₂ : ((tierLimiter .auth).allow_request now₂ a
      (RLState.init.setBucket a [now₁])).1 = true := by
    rw [allow_state_true _ _ _ _ hlt₂]
  have hload₂ : load_cookies now₂
      (some ⟨env.freshCookies, some (now₁ + cookieTTL)⟩) true
      = (true, env.freshCookies) := by
    simp only [load_cookies]
    rw [if_neg (not_lt.2 httl)]
    simp
  have eb2 : authenticate_with_browser env now₂
      (some ⟨env.freshCookies, some (now₁ + cookieTTL)⟩)
      = ⟨true, some ⟨env.freshCookies, some (now₁ + cookieTTL)⟩,
          env.freshCookies, ⟨1, 1, 0⟩⟩ := by
    simp only [authenticate_with_browser]
    rw [h1]
    rw [hload₂]
    simp [h2]
  have eg2 : authenticate_kwork_account env now₂ false
      (some ⟨env.freshCookies, some (now₁ + cookieTTL)⟩)
      = ⟨some env.freshCookies,
          some ⟨env.freshCookies, some (now₁ + cookieTTL)⟩, ⟨1, 1, 0⟩⟩ := by
    simp [authenticate_kwork_account, eb2]
  have e2 : authenticate_with_playwright env now₂ a
      ⟨true, dictUpdate client.session_cookies env.freshCookies⟩
      (RLState.init.setBucket a [now₁])
      (some ⟨env.freshCookies, some (now₁ + cookieTTL)⟩) false
      = ⟨true, ⟨true, dictUpdate
            (dictUpdate client.session_cookies env.freshCookies)
            env.freshCookies⟩,
          ((tierLimiter .auth).allow_request now₂ a
            (RLState.init.setBucket a [now₁])).2,
          some ⟨env.freshCookies, some (now₁ + cookieTTL)⟩, ⟨1, 1, 0⟩⟩ := by
    simp only [authenticate_with_playwright]
    rw [ha₂]
    simp only []
    rw [eg2]
    simp [hempty]
  refine ⟨?_, ?_, ?_, ?_⟩
  · rw [e1]
  · rw [e1]
  · rw [e1]
    show (authenticate_with_playwright env now₂ a
      ⟨true, dictUpdate client.session_cookies env.freshCookies⟩
      (RLState.init.setBucket a [now₁])
      (some ⟨env.freshCookies, some (now₁ + cookieTTL)⟩) false).ok = true
    rw [e2]
  · rw [e1]
    show (authenticate_with_playwright env now₂ a
      ⟨true, dictUpdate client.session_cookies env.freshCookies⟩
      (RLState.init.setBucket a [now₁])
      (some ⟨env.freshCookies, some (now₁ + cookieTTL)⟩) false).effects.loginSubmissions = 0
    rw [e2]

/-- Claim C5 witness: `auth_login_submitted_at_most_once` at times 10
and 20 with the benign environment. -/
theorem auth_login_submitted_at_most_once_witness :
    (goodEnv.browserInitOk = true ∧ goodEnv.savedCookiesValid = true ∧
      goodEnv.loginFlowSucceeds = true ∧ goodEnv.freshCookies ≠ [] ∧
      (20:ℚ) ≤ 10 + cookieTTL) ∧
    (authenticate_with_playwright goodEnv 10 "A" ⟨false, []⟩ RLState.init none
        false).ok = true ∧
    (authenticate_with_playwright goodEnv 10 "A" ⟨false, []⟩ RLState.init none
        false).effects.loginSubmissions = 1 ∧
    (authenticate_with_playwright goodEnv 20 "A"
        (authenticate_with_playwright goodEnv 10 "A" ⟨false, []⟩ RLState.init none
          false).client
        (authenticate_with_playwright goodEnv 10 "A" ⟨false, []⟩ RLState.init none
          false).authBucket
        (authenticate_with_playwright goodEnv 10 "A" ⟨false, []⟩ RLState.init none
          false).file
        false).ok = true ∧
    (authenticate_with_playwright goodEnv 20 "A"
        (authenticate_with_playwright goodEnv 10 "A" ⟨false, []⟩ RLState.init none
          false).client
        (authenticate_with_playwright goodEnv 10 "A" ⟨false, []⟩ RLState.init none
          false).authBucket
        (authenticate_with_playwright goodEnv 10 "A" ⟨false, []⟩ RLState.init none
          false).file
        false).effects.loginSubmissions = 0 :=
  ⟨⟨rfl, rfl, rfl, by simp [goodEnv], by norm_num [cookieTTL]⟩,
    auth_login_submitted_at_most_once goodEnv 10 20 "A" ⟨false, []⟩ rfl rfl rfl
      (by simp [goodEnv]) (by norm_num [cookieTTL])⟩

end Kwork
